import Mathlib

/-!
Shallow embedding of the category-scoped finance tracker (tracker_v3.py):
the Transactions, Categories, Budgets and Goals tables and the operations
the specification describes.  Tables are lists of rows; monetary amounts
are exact rationals; dates are integers (day numbers), so a date
difference in days is integer subtraction.  A SQL aggregate `sum(col)`
returns NULL on an empty selection, modelled as `Option` with `none`.
Operations that a sqlite3 error can interrupt are modelled with an
explicit `fail` flag standing for the store raising during the statement:
each such operation returns the surfaced outcome together with the table
contents after commit or rollback, mirroring the try/except structure of
the source.
-/

deriving instance DecidableEq for Except

namespace Tracker

/-- A transaction is typed by the string field `type`, which the program
only ever sets to "Expense" or "Income". -/
inductive TType where
  | Expense : TType
  | Income : TType
deriving DecidableEq, Repr

/-- A row of the Transactions table:
`(id INTEGER PRIMARY KEY, recipient_or_payer VARCHAR, amount DECIMAL,
type VARCHAR, date DATE, category_id INTEGER)`; `category_id` is nullable. -/
structure TransactionRow where
  id : Int
  recipient_or_payer : String
  amount : Rat
  ttype : TType
  tdate : Int
  category_id : Option Int
deriving DecidableEq, Repr

/-- A row of the Categories table:
`(category_id INTEGER PRIMARY KEY, category_type VARCHAR)`. -/
structure CategoryRow where
  category_id : Int
  category_type : String
deriving DecidableEq, Repr

/-- A row of the Budgets table:
`(budget_id INTEGER PRIMARY KEY, category_id INTEGER,
budget_amount DECIMAL, start DATE, end DATE)`. -/
structure BudgetRow where
  budget_id : Int
  category_id : Int
  budget_amount : Rat
  start_date : Int
  end_date : Int
deriving DecidableEq, Repr

/-- A row of the Goals table:
`(goal_id INTEGER PRIMARY KEY, category_id INTEGER,
goal_target DECIMAL, due_date DATE)`. -/
structure GoalRow where
  goal_id : Int
  category_id : Int
  goal_target : Rat
  due_date : Int
deriving DecidableEq, Repr

/-- The whole persisted state: the four tables created by `create_tables`. -/
structure AppState where
  transactions : List TransactionRow
  categories : List CategoryRow
  budgets : List BudgetRow
  goals : List GoalRow
deriving DecidableEq, Repr

/-- The error taxonomy of the spec plus the Python runtime errors the code
can raise: `StoreError` for a sqlite3 error, `TypeErr` for Python comparing
`None` with a number, `ZeroDivision` for division by zero. -/
inductive CoreErr where
  | NotFound : CoreErr
  | DuplicateCategory : CoreErr
  | StoreError : CoreErr
  | TypeErr : CoreErr
  | ZeroDivision : CoreErr
deriving DecidableEq, Repr

/-- Boolean test that an `Except` is a success, used to state that an
operation surfaced no error. -/
def exceptIsOk {e a : Type} : Except e a → Bool
  | .ok _ => true
  | .error _ => false

/- ------------------------------------------------------------------
Transaction operations (class Transaction, tracker_v3.py lines 54-100)
------------------------------------------------------------------ -/

/-- `Transaction.category_to_null` (lines 89-100):
`UPDATE Transactions SET category_id = NULL WHERE category_id = ?`. -/
def category_to_null (rows : List TransactionRow) (deleted_category_id : Int) :
    List TransactionRow :=
  rows.map (fun r =>
    if r.category_id = some deleted_category_id
    then { r with category_id := none } else r)

/-- `null_deleted_category` (lines 838-854): selects all Transactions whose
`category_id` equals the deleted id, then calls `category_to_null` once per
selected row (each call is the same bulk UPDATE). -/
def null_deleted_category (rows : List TransactionRow) (delete_choice : Int) :
    List TransactionRow :=
  let matched := rows.filter (fun r => r.category_id = some delete_choice)
  matched.foldl (fun acc _ => category_to_null acc delete_choice) rows

/-- `Transaction.set_new_amount` (lines 76-87):
`UPDATE Transactions SET amount = ? WHERE id = ?`. -/
def set_new_amount (rows : List TransactionRow) (new_amount : Rat)
    (transaction_id : Int) : List TransactionRow :=
  rows.map (fun r =>
    if r.id = transaction_id then { r with amount := new_amount } else r)

/- ------------------------------------------------------------------
Category operations (class Category and helpers)
------------------------------------------------------------------ -/

/-- The rowid sqlite assigns when a row is inserted with a NULL
`INTEGER PRIMARY KEY` and the table holds the nonnegative ids this program
produces: one more than the largest id in use, 1 for an empty table.
The Categories table is declared without AUTOINCREMENT (line 309-311), so
this is max-plus-one over the CURRENT rows, not over all ids ever used. -/
def next_id (cats : List CategoryRow) : Int :=
  ((cats.map (fun c => c.category_id)).foldl max 0) + 1

/-- SQL `LOWER`: fold each character to lower case (SQLite's LOWER folds
ASCII letters), viewed as the string's character list. -/
def sql_lower (s : String) : List Char :=
  s.data.map Char.toLower

/-- `Category.does_exist` (lines 130-142):
`SELECT COUNT(*) FROM Categories WHERE LOWER(category_type) = LOWER(?)`,
returning whether the count is positive. -/
def does_exist (cats : List CategoryRow) (category_type : String) : Bool :=
  0 < (cats.filter
        (fun c => sql_lower c.category_type = sql_lower category_type)).length

/-- `Category.add` (lines 117-128): `INSERT INTO Categories (category_type)
VALUES(?)`; the store assigns the new `category_id`. -/
def category_add (cats : List CategoryRow) (category_name : String) :
    List CategoryRow :=
  cats ++ [⟨next_id cats, category_name⟩]

/-- `Category.delete` (lines 144-155):
`DELETE FROM Categories WHERE category_id = ?`. -/
def category_delete (cats : List CategoryRow) (category_id : Int) :
    List CategoryRow :=
  cats.filter (fun c => c.category_id ≠ category_id)

/-- `get_category_map` (lines 374-386) restricted to its success path:
the id-to-name snapshot of the Categories table in row order. -/
def get_category_map (cats : List CategoryRow) : List (Int × String) :=
  cats.map (fun c => (c.category_id, c.category_type))

/-- The create path of `add_category` (lines 481-507): reject with
`DuplicateCategory` when `does_exist` already finds the name
case-insensitively (the source prints "already exists" and re-prompts),
otherwise insert via `Category.add` and read the new id from
`cursor.lastrowid`.  Returns the surfaced outcome and the resulting table. -/
def registry_create (cats : List CategoryRow) (category_name : String) :
    Except CoreErr Int × List CategoryRow :=
  if does_exist cats category_name then (.error .DuplicateCategory, cats)
  else (.ok (next_id cats), category_add cats category_name)

/-- The delete path of `delete_category` (lines 800-835): the chosen id
must be a key of the current category map (otherwise the source re-prompts,
the spec's `NotFound`); its name is then re-checked with `does_exist` and
the row deleted with `Category.delete`.  Only the Categories table is
touched: no Transaction, Budget or Goal is consulted. -/
def registry_delete (st : AppState) (delete_choice : Int) :
    Except CoreErr AppState :=
  match (get_category_map st.categories).find?
      (fun p => p.1 == delete_choice) with
  | none => .error .NotFound
  | some p =>
      if does_exist st.categories p.2 then
        .ok { st with categories := category_delete st.categories delete_choice }
      else .error .NotFound

/-- The sequence the spec calls "delete(c) followed by null_category(c)":
`delete_category` removes the Categories row, then `null_deleted_category`
nulls the references in Transactions (lines 828-834). -/
def delete_then_null (st : AppState) (c : Int) : AppState :=
  let st1 := { st with categories := category_delete st.categories c }
  { st1 with transactions := null_deleted_category st1.transactions c }

/- ------------------------------------------------------------------
Aggregate queries and budget_notice (lines 562-592)
------------------------------------------------------------------ -/

/-- `SELECT sum(amount) FROM Transactions WHERE type = ? AND
category_id = ?`: NULL (`none`) when no row matches, else the sum. -/
def sql_sum_amount (rows : List TransactionRow) (t : TType) (cid : Int) :
    Option Rat :=
  let xs := rows.filter (fun r => r.ttype = t ∧ r.category_id = some cid)
  if xs.isEmpty then none else some ((xs.map (fun r => r.amount)).sum)

/-- `SELECT sum(budget_amount) FROM Budgets WHERE category_id = ?`:
NULL (`none`) when the category has no Budget rows, else the sum. -/
def sql_sum_budget (bs : List BudgetRow) (cid : Int) : Option Rat :=
  let xs := bs.filter (fun b => b.category_id = cid)
  if xs.isEmpty then none else some ((xs.map (fun b => b.budget_amount)).sum)

/-- The notice `budget_notice` can print: the `***WARNING***` spending
message for an Expense, the informational income message for an Income. -/
inductive Notice where
  | warning : Notice
  | info : Notice
deriving DecidableEq, Repr

/-- `budget_notice` (lines 562-592): fetch `transaction_sum` and
`budget_sum`; `if budget_sum:` guards all threshold arithmetic, so a NULL
or zero budget sum short-circuits to no notice.  Past that guard the code
compares `transaction_sum > budget_sum * 0.9`; in Python a NULL
`transaction_sum` is `None` and that comparison raises `TypeError`. -/
def budget_notice (rows : List TransactionRow) (bs : List BudgetRow)
    (t : TType) (cid : Int) : Except CoreErr (Option Notice) :=
  let transaction_sum := sql_sum_amount rows t cid
  let budget_sum := sql_sum_budget bs cid
  match budget_sum with
  | none => .ok none
  | some b =>
      if b = 0 then .ok none
      else
        match transaction_sum with
        | none => .error .TypeErr
        | some ts =>
            .ok (if ts > b * (9 / 10) then
                   some (match t with
                         | .Expense => .warning
                         | .Income => .info)
                 else none)

/- ------------------------------------------------------------------
Goal.progress (lines 241-291)
------------------------------------------------------------------ -/

/-- Round a rational to the nearest integer, ties to the even integer:
the rounding Python's format specifier `:.0f` applies to the computed
percentage. -/
def roundHalfEven (q : Rat) : Int :=
  let n := q.floor
  let f := q - n
  if f < 1 / 2 then n
  else if 1 / 2 < f then n + 1
  else if n % 2 = 0 then n else n + 1

/-- The possible outcomes of `Goal.progress`: the "No transactions were
found" message, the rounded-percent message with its days-left figure, the
"achieved" message, or the deficit message with its days-left figure. -/
inductive ProgressReport where
  | noTransactions : ProgressReport
  | percentMsg (percent : Int) (days_left : Int) : ProgressReport
  | achieved : ProgressReport
  | deficitMsg (deficit : Rat) (days_left : Int) : ProgressReport
deriving DecidableEq, Repr

/-- The local `category_income` of `Goal.progress`:
`cursor.fetchone()[0] or 0` over the Income sum. -/
def category_income_sum (rows : List TransactionRow) (cid : Int) : Rat :=
  (sql_sum_amount rows .Income cid).getD 0

/-- The local `category_expense` of `Goal.progress`:
`cursor.fetchone()[0] or 0` over the Expense sum. -/
def category_expense_sum (rows : List TransactionRow) (cid : Int) : Rat :=
  (sql_sum_amount rows .Expense cid).getD 0

/-- The local `progress_total` of `Goal.progress`: net income minus
expense within the category. -/
def progress_net (rows : List TransactionRow) (cid : Int) : Rat :=
  category_income_sum rows cid - category_expense_sum rows cid

/-- `Goal.progress` (lines 241-291): sum the category's Income and Expense
amounts (each `or 0` when NULL); report "no transactions" when both sums
are zero; otherwise on nonnegative net divide by `goal_target` — in Python
a zero target raises ZeroDivisionError here — and report the rounded
percentage with `(due_date - today).days` when below 100, "achieved"
otherwise; on negative net report `abs(net - goal_target)` with the same
days figure. -/
def goal_progress (rows : List TransactionRow) (g : GoalRow) (today : Int) :
    Except CoreErr ProgressReport :=
  if category_income_sum rows g.category_id = 0
      ∧ category_expense_sum rows g.category_id = 0 then
    .ok .noTransactions
  else if 0 ≤ progress_net rows g.category_id then
    if g.goal_target = 0 then .error .ZeroDivision
    else if progress_net rows g.category_id / g.goal_target * 100 < 100 then
      .ok (.percentMsg
            (roundHalfEven (progress_net rows g.category_id
              / g.goal_target * 100))
            (g.due_date - today))
    else .ok .achieved
  else
    .ok (.deficitMsg |progress_net rows g.category_id - g.goal_target|
          (g.due_date - today))

/- ------------------------------------------------------------------
Store-failure behavior: each write wrapped in try/except that rolls the
transaction back and re-raises (Transaction.add lines 63-74,
set_new_amount 76-87, category_to_null 89-100, Category.add 117-128,
Category.delete 144-155, Budget.add 183-196, Goal.add 226-239), and the
snapshot query get_category_map (374-386) whose except clause only prints.
The `fail` flag is the store raising sqlite3.Error on the statement.
Each run function returns the surfaced outcome and the table after
commit or rollback.
------------------------------------------------------------------ -/

/-- `Transaction.add` under a possible store failure: on failure the
insert is rolled back and the error re-raised; on success the row is
committed. -/
def transaction_add_run (fail : Bool) (rows : List TransactionRow)
    (r : TransactionRow) : Except CoreErr Unit × List TransactionRow :=
  if fail then (.error .StoreError, rows)
  else (.ok (), rows ++ [r])

/-- `Transaction.set_new_amount` under a possible store failure. -/
def set_new_amount_run (fail : Bool) (rows : List TransactionRow)
    (new_amount : Rat) (transaction_id : Int) :
    Except CoreErr Unit × List TransactionRow :=
  if fail then (.error .StoreError, rows)
  else (.ok (), set_new_amount rows new_amount transaction_id)

/-- `Transaction.category_to_null` under a possible store failure. -/
def category_to_null_run (fail : Bool) (rows : List TransactionRow)
    (deleted_category_id : Int) :
    Except CoreErr Unit × List TransactionRow :=
  if fail then (.error .StoreError, rows)
  else (.ok (), category_to_null rows deleted_category_id)

/-- `Category.add` under a possible store failure. -/
def category_add_run (fail : Bool) (cats : List CategoryRow)
    (category_name : String) : Except CoreErr Unit × List CategoryRow :=
  if fail then (.error .StoreError, cats)
  else (.ok (), category_add cats category_name)

/-- `Category.delete` under a possible store failure. -/
def category_delete_run (fail : Bool) (cats : List CategoryRow)
    (category_id : Int) : Except CoreErr Unit × List CategoryRow :=
  if fail then (.error .StoreError, cats)
  else (.ok (), category_delete cats category_id)

/-- `Budget.add` under a possible store failure. -/
def budget_add_run (fail : Bool) (bs : List BudgetRow) (b : BudgetRow) :
    Except CoreErr Unit × List BudgetRow :=
  if fail then (.error .StoreError, bs)
  else (.ok (), bs ++ [b])

/-- `Goal.add` under a possible store failure. -/
def goal_add_run (fail : Bool) (gs : List GoalRow) (g : GoalRow) :
    Except CoreErr Unit × List GoalRow :=
  if fail then (.error .StoreError, gs)
  else (.ok (), gs ++ [g])

/-- `get_category_map` (lines 374-386) under a possible store failure: its
except clause prints the error message and falls through to
`return category_map`, so on failure the caller receives the dictionary
built so far — empty, since the error strikes at execute/fetchall before
any entry is added — and no error is surfaced. -/
def get_category_map_run (fail : Bool) (cats : List CategoryRow) :
    Except CoreErr (List (Int × String)) :=
  if fail then .ok []
  else .ok (get_category_map cats)

/-- The claim-side "summed budget amount for the category": the sum of
the matching budget amounts, 0 when there are none (the SQL sum with NULL
read as 0). -/
def budget_sum_val (bs : List BudgetRow) (cid : Int) : Rat :=
  ((bs.filter (fun b => b.category_id = cid)).map
    (fun b => b.budget_amount)).sum

/-- The claim-side "summed transaction amount for the (type, category)
pair": the sum of the matching amounts, 0 when there are none. -/
def transaction_sum_val (rows : List TransactionRow) (t : TType)
    (cid : Int) : Rat :=
  ((rows.filter (fun r => r.ttype = t ∧ r.category_id = some cid)).map
    (fun r => r.amount)).sum

/- ------------------------------------------------------------------
Helper lemmas
------------------------------------------------------------------ -/

/-- Mapping a function that fixes every member of a list leaves the list
unchanged. -/
theorem map_id_of_mem {α : Type} (f : α → α) :
    ∀ (l : List α), (∀ a ∈ l, f a = a) → l.map f = l
  | [], _ => rfl
  | x :: xs, h => by
      simp only [List.map_cons]
      rw [h x (by simp), map_id_of_mem f xs (fun a ha => h a (by simp [ha]))]

/-- A fold that just re-applies an idempotent function returns the
function's value however many steps it takes. -/
theorem foldl_idem {α β : Type} (g : α → α) (hg : ∀ x, g (g x) = g x) :
    ∀ (l : List β) (x : α), l.foldl (fun a _ => g a) (g x) = g x
  | [], _ => rfl
  | _ :: ys, x => by
      simp only [List.foldl_cons]
      rw [hg x]
      exact foldl_idem g hg ys x

/-- The bulk UPDATE of `category_to_null` is idempotent. -/
theorem category_to_null_idem (rows : List TransactionRow) (c : Int) :
    category_to_null (category_to_null rows c) c = category_to_null rows c := by
  simp only [category_to_null, List.map_map]
  congr 1
  funext r
  by_cases h : r.category_id = some c <;> simp [Function.comp, h]

/-- `null_deleted_category` has the same effect as a single
`category_to_null`: one bulk UPDATE per selected row collapses by
idempotence, and with no selected row no row needed the UPDATE. -/
theorem null_deleted_category_eq (rows : List TransactionRow) (c : Int) :
    null_deleted_category rows c = category_to_null rows c := by
  unfold null_deleted_category
  cases hm : rows.filter (fun r => r.category_id = some c) with
  | nil =>
      simp only [hm, List.foldl_nil]
      symm
      apply map_id_of_mem
      intro r hr
      have hno : ¬(r.category_id = some c) := by
        intro h
        have hmem : r ∈ rows.filter (fun r => r.category_id = some c) := by
          simp [List.mem_filter, hr, h]
        rw [hm] at hmem
        simp at hmem
      simp [hno]
  | cons y ys =>
      simp only [hm, List.foldl_cons]
      exact foldl_idem _ (fun x => category_to_null_idem x c) ys rows

/-- The initial value of a max-fold bounds the result from below. -/
theorem foldl_max_init_le : ∀ (l : List Int) (a : Int), a ≤ l.foldl max a
  | [], _ => le_refl _
  | y :: ys, a =>
      le_trans (le_max_left a y) (foldl_max_init_le ys (max a y))

/-- Every member of a list bounds its max-fold from below. -/
theorem mem_le_foldl_max :
    ∀ (l : List Int) (a x : Int), x ∈ l → x ≤ l.foldl max a
  | [], _, _, h => absurd h (List.not_mem_nil _)
  | y :: ys, a, x, h => by
      rcases List.mem_cons.mp h with h | h
      · subst h
        exact le_trans (le_max_right a x) (foldl_max_init_le ys (max a x))
      · exact mem_le_foldl_max ys (max a y) x h

/-- `Rat.floor` agrees with the floor of the ordered-field structure. -/
theorem rat_floor_eq_floor (q : Rat) : q.floor = ⌊q⌋ := by
  rw [Rat.floor_def', Rat.floor_def]

/-- `roundHalfEven` lands within half a unit of its argument: it rounds to
a nearest integer. -/
theorem roundHalfEven_nearest (q : Rat) :
    |(roundHalfEven q : Rat) - q| ≤ 1 / 2 := by
  have hfl : ((q.floor : Rat)) ≤ q := by
    rw [rat_floor_eq_floor]; exact_mod_cast Int.floor_le q
  have hlt : q < (q.floor : Rat) + 1 := by
    rw [rat_floor_eq_floor]; exact_mod_cast Int.lt_floor_add_one q
  unfold roundHalfEven
  by_cases h1 : q - (q.floor : Rat) < 1 / 2
  · simp only [if_pos h1]
    rw [abs_le]
    constructor <;> linarith
  · simp only [if_neg h1]
    by_cases h2 : (1 : Rat) / 2 < q - (q.floor : Rat)
    · simp only [if_pos h2]
      rw [abs_le]
      push_cast
      constructor <;> linarith
    · have : q - (q.floor : Rat) = 1 / 2 := by linarith [not_lt.mp h1, not_lt.mp h2]
      by_cases h3 : q.floor % 2 = 0
      · simp only [if_pos h3, if_neg h2]
        rw [abs_le]
        constructor <;> linarith
      · simp only [if_neg h3, if_neg h2]
        rw [abs_le]
        push_cast
        constructor <;> linarith

/- ------------------------------------------------------------------
Concrete fixtures used by witnesses
------------------------------------------------------------------ -/

/-- A one-row Transactions table: transaction 1 is a £5 Expense to "a" in
category 2. -/
def exampleTx : TransactionRow := ⟨1, "a", 5, TType.Expense, 0, some 2⟩

/-- A concrete state with the one transaction above and category 2. -/
def exampleState : AppState := ⟨[exampleTx], [⟨2, "X"⟩], [], []⟩

/- ------------------------------------------------------------------
Claim theorems
------------------------------------------------------------------ -/

/-- Claim C1: for a category `c` with existing Transactions, deleting the
Categories row and then running the nulling step leaves the Transactions
table equal to the original table with every reference to `c` set to null
and all other fields untouched; in particular the row count is unchanged
and no row still references `c`. -/
theorem c1_delete_then_null (st : AppState) (c : Int)
    (_hc : c ∈ st.categories.map (fun cat => cat.category_id))
    (_ht : ∃ r ∈ st.transactions, r.category_id = some c) :
    (delete_then_null st c).transactions
        = st.transactions.map (fun r =>
            if r.category_id = some c then { r with category_id := none }
            else r)
      ∧ (delete_then_null st c).transactions.length
          = st.transactions.length
      ∧ ∀ r ∈ (delete_then_null st c).transactions,
          r.category_id ≠ some c := by
  have h1 : (delete_then_null st c).transactions
      = category_to_null st.transactions c := by
    simp [delete_then_null, null_deleted_category_eq]
  refine ⟨?_, ?_, ?_⟩
  · rw [h1]; rfl
  · rw [h1]; simp [category_to_null]
  · rw [h1]
    intro r hr
    simp only [category_to_null, List.mem_map] at hr
    obtain ⟨r0, _, hr0⟩ := hr
    by_cases h : r0.category_id = some c
    · rw [← hr0]; simp [h]
    · rw [← hr0]; simp [h]

/-- Witness for C1 at a concrete state: one transaction in category 2,
category 2 present; after delete-then-null the reference is null, the row
survives, and nothing references 2. -/
theorem c1_witness :
    (delete_then_null exampleState 2).transactions
        = exampleState.transactions.map (fun r =>
            if r.category_id = some 2 then { r with category_id := none }
            else r)
      ∧ (delete_then_null exampleState 2).transactions.length
          = exampleState.transactions.length
      ∧ ∀ r ∈ (delete_then_null exampleState 2).transactions,
          r.category_id ≠ some 2 :=
  c1_delete_then_null exampleState 2 (by decide) (by decide)

/-- Claim C7: updating the amount of a transaction id that is absent from
the Transactions table surfaces no error and leaves every row unchanged:
the UPDATE silently affects zero rows. -/
theorem c7_update_absent_id (rows : List TransactionRow) (new_amount : Rat)
    (transaction_id : Int)
    (h : ∀ r ∈ rows, r.id ≠ transaction_id) :
    set_new_amount_run false rows new_amount transaction_id
      = (.ok (), rows) := by
  simp only [set_new_amount_run, if_neg (by simp : ¬False), set_new_amount]
  rw [map_id_of_mem]
  · simp
  · intro r hr
    simp [h r hr]

/-- Witness for C7: updating id 9 in a one-row table holding only id 1
returns success and the untouched table. -/
theorem c7_witness :
    set_new_amount_run false [exampleTx] 7 9 = (.ok (), [exampleTx]) :=
  c7_update_absent_id [exampleTx] 7 9 (by decide)

/-- Claim C4: once `create` has succeeded for a name, a second `create`
of any case variant of that name fails with `DuplicateCategory` — the
existence gate compares lowercased names — and leaves the Categories
table exactly as the first create left it: nothing is inserted. -/
theorem c4_duplicate_create (cats : List CategoryRow) (n v : String)
    (i : Int) (h1 : (registry_create cats n).1 = .ok i)
    (hv : sql_lower v = sql_lower n) :
    registry_create (registry_create cats n).2 v
      = (.error .DuplicateCategory, (registry_create cats n).2) := by
  by_cases hd : does_exist cats n
  · simp [registry_create, hd] at h1
  · have h2 : (registry_create cats n).2 = category_add cats n := by
      simp [registry_create, hd]
    have hex : does_exist (category_add cats n) v = true := by
      simp only [does_exist, category_add, List.filter_append]
      have hrow : List.filter
          (fun c => sql_lower c.category_type = sql_lower v)
          [(⟨next_id cats, n⟩ : CategoryRow)]
            = [(⟨next_id cats, n⟩ : CategoryRow)] := by
        simp [hv]
      rw [hrow, List.length_append]
      simp
    rw [h2]
    simp [registry_create, hex]

/-- Witness for C4: create "Food" in an empty registry, then create
"FOOD"; the second create is refused and the table is unchanged. -/
theorem c4_witness :
    registry_create (registry_create [] "Food").2 "FOOD"
      = (.error .DuplicateCategory, (registry_create [] "Food").2) :=
  c4_duplicate_create [] "Food" "FOOD" 1 (by decide) (by decide)

/-- The four categories `add_default_category` seeds with fixed ids 1-4
(lines 341-371). -/
def seededCategories : List CategoryRow :=
  [⟨1, "Bills"⟩, ⟨2, "Personal"⟩, ⟨3, "Travel"⟩, ⟨4, "Food"⟩]

/-- Counterexample to claim C5: id 4 is assigned to the seeded category
"Food"; after "Food" is deleted, the next create hands the same id 4 to
"Utilities" — the Categories table is an INTEGER PRIMARY KEY without
AUTOINCREMENT, so the store picks max-plus-one over the surviving rows
and a freed top id is reused. -/
theorem c5_counterexample :
    4 ∈ seededCategories.map (fun c => c.category_id)
      ∧ 4 ∉ (category_delete seededCategories 4).map
          (fun c => c.category_id)
      ∧ (registry_create (category_delete seededCategories 4)
          "Utilities").1 = .ok 4 := by
  decide

/-- Amended C5: a successful create assigns max(current ids, 0) + 1, an
id strictly greater than every id currently in the registry; an id below
the current maximum is never reassigned, but the id of a deleted category
that exceeded every surviving id is handed out again (no auto-increment
high-water mark survives the deletion). -/
theorem c5_amended_next_id (cats : List CategoryRow) (name : String)
    (i : Int) (h : (registry_create cats name).1 = .ok i) :
    i = next_id cats ∧ ∀ c ∈ cats, c.category_id < i := by
  by_cases hd : does_exist cats name
  · simp [registry_create, hd] at h
  · have hi : i = next_id cats := by
      simp [registry_create, hd] at h
      exact h.symm
    refine ⟨hi, ?_⟩
    intro c hc
    rw [hi]
    have : c.category_id ≤ (cats.map (fun c => c.category_id)).foldl max 0 :=
      mem_le_foldl_max _ 0 _ (List.mem_map_of_mem _ hc)
    unfold next_id
    omega

/-- Witness for amended C5: creating "Utilities" after deleting seeded
"Food" yields exactly max-plus-one (4), above every surviving id. -/
theorem c5_amended_witness :
    (4 : Int) = next_id (category_delete seededCategories 4)
      ∧ ∀ c ∈ category_delete seededCategories 4, c.category_id < 4 :=
  c5_amended_next_id (category_delete seededCategories 4) "Utilities" 4
    (by decide)

/-- Claim C6: the registry delete fails with NotFound exactly when no
Categories row carries the chosen id; when one does, it always succeeds,
removing that row and consulting no Transaction, Budget or Goal — those
tables are arbitrary here and come through unchanged. -/
theorem c6_registry_delete (st : AppState) (cid : Int) :
    (cid ∉ st.categories.map (fun c => c.category_id) →
        registry_delete st cid = .error .NotFound)
      ∧ (cid ∈ st.categories.map (fun c => c.category_id) →
        registry_delete st cid
          = .ok { st with
              categories := category_delete st.categories cid }) := by
  constructor
  · intro habs
    have hfind : (get_category_map st.categories).find?
        (fun p => p.1 == cid) = none := by
      rw [List.find?_eq_none]
      intro p hp
      simp only [get_category_map, List.mem_map] at hp
      obtain ⟨row, hrow, hpr⟩ := hp
      subst hpr
      simp only [beq_iff_eq]
      intro hcontra
      exact habs (List.mem_map.mpr ⟨row, hrow, hcontra⟩)
    simp [registry_delete, hfind]
  · intro hmem
    obtain ⟨row, hrow, hid⟩ := List.mem_map.mp hmem
    have hsome : ((get_category_map st.categories).find?
        (fun p => p.1 == cid)).isSome := by
      rw [List.find?_isSome]
      refine ⟨(row.category_id, row.category_type), ?_, ?_⟩
      · exact List.mem_map_of_mem _ hrow
      · simp [hid]
    cases hfind : (get_category_map st.categories).find?
        (fun p => p.1 == cid) with
    | none => rw [hfind] at hsome; simp at hsome
    | some q =>
        have hq : q ∈ get_category_map st.categories :=
          List.mem_of_find?_eq_some hfind
        simp only [get_category_map, List.mem_map] at hq
        obtain ⟨row2, hrow2, hqr⟩ := hq
        have hex : does_exist st.categories q.2 = true := by
          subst hqr
          simp only [does_exist]
          have : row2 ∈ st.categories.filter
              (fun c => sql_lower c.category_type
                = sql_lower row2.category_type) := by
            simp [List.mem_filter, hrow2]
          simp [List.length_pos_of_mem this]
        simp [registry_delete, hfind, hex]

/-- Witness for C6: in the concrete state, deleting present id 2 succeeds
and only shrinks the Categories table, deleting absent id 5 is NotFound. -/
theorem c6_witness :
    registry_delete exampleState 2
        = .ok { exampleState with
            categories := category_delete exampleState.categories 2 }
      ∧ registry_delete exampleState 5 = .error .NotFound :=
  ⟨(c6_registry_delete exampleState 2).2 (by decide),
   (c6_registry_delete exampleState 5).1 (by decide)⟩

/-- Counterexample to claim C8: with the store failing, the Registry's
snapshot query surfaces no error — it reports success with an empty map,
silently swallowing the store failure while the registry holds a row. -/
theorem c8_counterexample :
    get_category_map_run true [⟨1, "Bills"⟩] = .ok []
      ∧ exceptIsOk (get_category_map_run true [⟨1, "Bills"⟩]) = true := by
  constructor <;> rfl

/-- Amended C8: every store-level failure during a WRITE operation —
transaction insert, amount update, reference nulling, category add and
delete, budget add, goal add — is re-raised after the in-flight write is
rolled back, leaving the table as it was; the snapshot query
`get_category_map`, however, catches the store error and returns the map
built so far (empty), surfacing nothing. -/
theorem c8_amended_store_failures (fail : Bool)
    (rows : List TransactionRow) (cats : List CategoryRow)
    (bs : List BudgetRow) (gs : List GoalRow) (r : TransactionRow)
    (a : Rat) (tid c : Int) (name : String) (b : BudgetRow) (g : GoalRow)
    (hf : fail = true) :
    transaction_add_run fail rows r = (.error .StoreError, rows)
      ∧ set_new_amount_run fail rows a tid = (.error .StoreError, rows)
      ∧ category_to_null_run fail rows c = (.error .StoreError, rows)
      ∧ category_add_run fail cats name = (.error .StoreError, cats)
      ∧ category_delete_run fail cats c = (.error .StoreError, cats)
      ∧ budget_add_run fail bs b = (.error .StoreError, bs)
      ∧ goal_add_run fail gs g = (.error .StoreError, gs)
      ∧ get_category_map_run fail cats = .ok [] := by
  subst hf
  refine ⟨rfl, rfl, rfl, rfl, rfl, rfl, rfl, rfl⟩

/-- Witness for amended C8 at concrete tables: a failing store makes each
write surface `StoreError` with its table rolled back, while the snapshot
returns an empty map with no error. -/
theorem c8_amended_witness :
    transaction_add_run true [exampleTx] exampleTx
        = (.error .StoreError, [exampleTx])
      ∧ set_new_amount_run true [exampleTx] 7 1
          = (.error .StoreError, [exampleTx])
      ∧ category_to_null_run true [exampleTx] 2
          = (.error .StoreError, [exampleTx])
      ∧ category_add_run true [⟨2, "X"⟩] "Y"
          = (.error .StoreError, [⟨2, "X"⟩])
      ∧ category_delete_run true [⟨2, "X"⟩] 2
          = (.error .StoreError, [⟨2, "X"⟩])
      ∧ budget_add_run true [] ⟨1, 2, 100, 0, 9⟩
          = (.error .StoreError, [])
      ∧ goal_add_run true [] ⟨1, 2, 500, 9⟩
          = (.error .StoreError, [])
      ∧ get_category_map_run true [⟨2, "X"⟩] = .ok [] :=
  c8_amended_store_failures true [exampleTx] [⟨2, "X"⟩] [] []
    exampleTx 7 1 2 "Y" ⟨1, 2, 100, 0, 9⟩ ⟨1, 2, 500, 9⟩ rfl

/-- Claim C9: a goal with a strictly positive target never hits an
arithmetic error in `progress` — every path returns a report — while a
zero target with a nonnegative net and at least one transaction reaches
the unguarded division and raises: strict positivity is a genuine
precondition though the data model only demands a nonnegative target. -/
theorem c9_positive_target_no_error :
    (∀ (rows : List TransactionRow) (g : GoalRow) (td : Int),
        0 < g.goal_target →
        exceptIsOk (goal_progress rows g td) = true)
      ∧ goal_progress [⟨1, "p", 5, TType.Income, 0, some 1⟩]
          ⟨1, 1, 0, 10⟩ 0 = .error .ZeroDivision := by
  constructor
  · intro rows g td ht
    unfold goal_progress
    repeat' split
    all_goals first
      | rfl
      | exact absurd (by assumption) (ne_of_gt ht)
  · simp +decide [goal_progress, category_income_sum, category_expense_sum,
      progress_net, sql_sum_amount]

/-- Witness for C9: the concrete goal with target 500 completes without
error on the concrete ledger. -/
theorem c9_witness :
    exceptIsOk (goal_progress [exampleTx] ⟨1, 2, 500, 10⟩ 0) = true :=
  c9_positive_target_no_error.1 [exampleTx] ⟨1, 2, 500, 10⟩ 0
    (by norm_num)

/-- Claim C10: when a category has no Budget rows, or its budget amounts
sum to zero, the post-insert budget check reports no notice and raises no
error: the falsy budget sum is tested before any threshold comparison, so
the `None`-versus-number comparison is never reached. -/
theorem c10_falsy_budget_sum (rows : List TransactionRow)
    (bs : List BudgetRow) (t : TType) (cid : Int)
    (h : bs.filter (fun b => b.category_id = cid) = []
        ∨ ((bs.filter (fun b => b.category_id = cid)).map
            (fun b => b.budget_amount)).sum = 0) :
    budget_notice rows bs t cid = .ok none := by
  rcases h with h | h
  · simp [budget_notice, sql_sum_budget, h]
  · by_cases he : (bs.filter (fun b => b.category_id = cid)).isEmpty
    · simp [budget_notice, sql_sum_budget, he]
    · simp [budget_notice, sql_sum_budget, he, h]

/-- Witness for C10: a budget table whose only row for category 2 has a
zero amount produces no notice and no error after an Expense insert. -/
theorem c10_witness :
    budget_notice [exampleTx] [⟨1, 2, 0, 0, 9⟩] TType.Expense 2
      = .ok none :=
  c10_falsy_budget_sum [exampleTx] [⟨1, 2, 0, 0, 9⟩] TType.Expense 2
    (Or.inr (by simp))

/-- Claim C3: with nonnegative budget amounts, `budget_notice` returns a
notice exactly when the category's summed budget amount is positive and
the summed transaction amount strictly exceeds ninety percent of it; at
the boundary, 90 against a budget of 100 yields nothing while 91 yields
the Expense warning. -/
theorem c3_threshold_strict (rows : List TransactionRow)
    (bs : List BudgetRow) (t : TType) (cid : Int)
    (hb : ∀ b ∈ bs, 0 ≤ b.budget_amount) :
    ((∃ n, budget_notice rows bs t cid = .ok (some n)) ↔
        (0 < budget_sum_val bs cid
          ∧ transaction_sum_val rows t cid
              > 9 / 10 * budget_sum_val bs cid))
      ∧ budget_notice [⟨1, "p", 90, TType.Expense, 0, some 1⟩]
          [⟨1, 1, 100, 0, 9⟩] TType.Expense 1 = .ok none
      ∧ budget_notice [⟨1, "p", 91, TType.Expense, 0, some 1⟩]
          [⟨1, 1, 100, 0, 9⟩] TType.Expense 1 = .ok (some .warning) := by
  refine ⟨?_, ?_, ?_⟩
  · by_cases hFb : (bs.filter (fun b => b.category_id = cid)).isEmpty
    · have hval : budget_sum_val bs cid = 0 := by
        unfold budget_sum_val
        rw [List.isEmpty_iff.mp hFb]
        rfl
      simp [budget_notice, sql_sum_budget, hFb, hval]
    · have hsum : sql_sum_budget bs cid = some (budget_sum_val bs cid) := by
        simp [sql_sum_budget, hFb, budget_sum_val]
      have hnn : 0 ≤ budget_sum_val bs cid := by
        apply List.sum_nonneg
        intro x hx
        obtain ⟨b, hbmem, hbx⟩ := List.mem_map.mp hx
        exact hbx ▸ hb b (List.mem_of_mem_filter hbmem)
      by_cases hb0 : budget_sum_val bs cid = 0
      · simp [budget_notice, hsum, hb0]
      · have hpos : 0 < budget_sum_val bs cid :=
          lt_of_le_of_ne hnn (Ne.symm hb0)
        by_cases hFt : (rows.filter
            (fun r => r.ttype = t ∧ r.category_id = some cid)).isEmpty
        · have htval : transaction_sum_val rows t cid = 0 := by
            unfold transaction_sum_val
            rw [List.isEmpty_iff.mp hFt]
            rfl
          have hnot : ¬ transaction_sum_val rows t cid
              > 9 / 10 * budget_sum_val bs cid := by
            rw [htval]
            simp only [not_lt]
            positivity
          have htnone : sql_sum_amount rows t cid = none := by
            unfold sql_sum_amount
            rw [if_pos hFt]
          have hbn : budget_notice rows bs t cid = .error .TypeErr := by
            simp only [budget_notice, hsum, htnone]
            rw [if_neg hb0]
          constructor
          · intro hex
            obtain ⟨n, hn⟩ := hex
            rw [hbn] at hn
            simp at hn
          · intro hcond
            exact absurd hcond.2 hnot
        · have htsum : sql_sum_amount rows t cid
              = some (transaction_sum_val rows t cid) := by
            unfold sql_sum_amount
            rw [if_neg hFt]
            rfl
          by_cases hgt : transaction_sum_val rows t cid
              > budget_sum_val bs cid * (9 / 10)
          · have hgt' : transaction_sum_val rows t cid
                > 9 / 10 * budget_sum_val bs cid := by
              rw [mul_comm]; exact hgt
            simp only [budget_notice, hsum, hb0, htsum, if_neg hb0,
              if_pos hgt]
            cases t <;> simp [hpos, hgt']
          · have hgt' : ¬ transaction_sum_val rows t cid
                > 9 / 10 * budget_sum_val bs cid := by
              rw [mul_comm]; exact hgt
            simp [budget_notice, hsum, hb0, htsum, hgt, hgt']
  · norm_num [budget_notice, sql_sum_amount, sql_sum_budget]
  · norm_num [budget_notice, sql_sum_amount, sql_sum_budget]

/-- Witness for C3: at the concrete 91-versus-100 tables the equivalence
holds and both boundary computations evaluate as stated. -/
theorem c3_witness :
    ((∃ n, budget_notice [⟨1, "p", 91, TType.Expense, 0, some 1⟩]
          [⟨1, 1, 100, 0, 9⟩] TType.Expense 1 = .ok (some n)) ↔
        (0 < budget_sum_val [⟨1, 1, 100, 0, 9⟩] 1
          ∧ transaction_sum_val [⟨1, "p", 91, TType.Expense, 0, some 1⟩]
              TType.Expense 1
              > 9 / 10 * budget_sum_val [⟨1, 1, 100, 0, 9⟩] 1))
      ∧ budget_notice [⟨1, "p", 90, TType.Expense, 0, some 1⟩]
          [⟨1, 1, 100, 0, 9⟩] TType.Expense 1 = .ok none
      ∧ budget_notice [⟨1, "p", 91, TType.Expense, 0, some 1⟩]
          [⟨1, 1, 100, 0, 9⟩] TType.Expense 1 = .ok (some .warning) :=
  c3_threshold_strict [⟨1, "p", 91, TType.Expense, 0, some 1⟩]
    [⟨1, 1, 100, 0, 9⟩] TType.Expense 1
    (by intro b hb; simp at hb; rw [hb]; norm_num)

/-- Claim C2: with a positive target, `progress` reports "no transactions
found" exactly when both category sums are zero; with a nonzero sum and
nonnegative net whose percentage of target is below 100 it reports an
integer within half a unit of `(net / target) × 100` together with
`due_date − today` days left; at 100 percent or more it reports the goal
achieved; and with negative net it reports the deficit `|net − target|`
with the same days-left figure. -/
theorem c2_progress_report (rows : List TransactionRow) (g : GoalRow)
    (td : Int) (ht : 0 < g.goal_target) :
    (goal_progress rows g td = .ok .noTransactions ↔
        (category_income_sum rows g.category_id = 0
          ∧ category_expense_sum rows g.category_id = 0))
      ∧ (¬(category_income_sum rows g.category_id = 0
            ∧ category_expense_sum rows g.category_id = 0) →
          0 ≤ progress_net rows g.category_id →
          progress_net rows g.category_id / g.goal_target * 100 < 100 →
          ∃ p : Int,
            goal_progress rows g td
                = .ok (.percentMsg p (g.due_date - td))
              ∧ |(p : Rat) - progress_net rows g.category_id
                  / g.goal_target * 100| ≤ 1 / 2)
      ∧ (¬(category_income_sum rows g.category_id = 0
            ∧ category_expense_sum rows g.category_id = 0) →
          0 ≤ progress_net rows g.category_id →
          100 ≤ progress_net rows g.category_id / g.goal_target * 100 →
          goal_progress rows g td = .ok .achieved)
      ∧ (¬(category_income_sum rows g.category_id = 0
            ∧ category_expense_sum rows g.category_id = 0) →
          progress_net rows g.category_id < 0 →
          goal_progress rows g td
            = .ok (.deficitMsg
                |progress_net rows g.category_id - g.goal_target|
                (g.due_date - td))) := by
  have ht' : ¬ g.goal_target = 0 := ne_of_gt ht
  refine ⟨?_, ?_, ?_, ?_⟩
  · constructor
    · intro h
      by_cases h0 : category_income_sum rows g.category_id = 0
          ∧ category_expense_sum rows g.category_id = 0
      · exact h0
      · exfalso
        simp only [goal_progress, if_neg h0] at h
        by_cases hn : 0 ≤ progress_net rows g.category_id
        · rw [if_pos hn, if_neg ht'] at h
          by_cases hp : progress_net rows g.category_id
              / g.goal_target * 100 < 100
          · rw [if_pos hp] at h; simp at h
          · rw [if_neg hp] at h; simp at h
        · rw [if_neg hn] at h; simp at h
    · intro h0
      simp [goal_progress, h0]
  · intro h0 hn hp
    refine ⟨roundHalfEven (progress_net rows g.category_id
        / g.goal_target * 100), ?_, roundHalfEven_nearest _⟩
    simp only [goal_progress, if_neg h0, if_pos hn, if_neg ht', if_pos hp]
  · intro h0 hn hp
    have hp' : ¬ progress_net rows g.category_id
        / g.goal_target * 100 < 100 := not_lt.mpr hp
    simp only [goal_progress, if_neg h0, if_pos hn, if_neg ht',
      if_neg hp']
  · intro h0 hneg
    have hn' : ¬ 0 ≤ progress_net rows g.category_id := not_le.mpr hneg
    simp only [goal_progress, if_neg h0, if_neg hn']

/-- Witness for C2: an Income of 500 against target 500 is reported as
goal achieved. -/
theorem c2_witness :
    goal_progress [⟨1, "p", 500, TType.Income, 0, some 1⟩]
      ⟨1, 1, 500, 10⟩ 0 = .ok .achieved :=
  (c2_progress_report [⟨1, "p", 500, TType.Income, 0, some 1⟩]
      ⟨1, 1, 500, 10⟩ 0 (by norm_num)).2.2.1
    (by simp +decide [category_income_sum, category_expense_sum,
      sql_sum_amount])
    (by simp +decide [progress_net, category_income_sum,
      category_expense_sum, sql_sum_amount])
    (by simp +decide [progress_net, category_income_sum,
      category_expense_sum, sql_sum_amount])

end Tracker
